import Mathlib

/-!
Verification of the yt-dlp GUI core (src/yt_dlp_gui.py): the command
builder and event trace of `DownloadWorker.run`, the cookie selection of
`YtDlpGui._get_cookies_selection`, the download-start guard logic of
`YtDlpGui.start_download` / `_resolve_download_dirs`, and the JSON
settings persistence of `load_config` / `save_config` together with the
window-size restore step of `YtDlpGui.__init__`.

Python strings are modelled as Lean `String`; Python `None`-or-string
values as `Option String` with Python truthiness (`None` and `""` are
falsy); JSON values, as far as the config file uses them, as `JValue`.
-/

/-- Python whitespace as recognised by `str.strip()` (ASCII portion:
space, tab, newline, carriage return, vertical tab, form feed). -/
def isPySpace (c : Char) : Bool :=
  c = ' ' || c = '\t' || c = '\n' || c = '\r' || c = '\x0b' || c = '\x0c'

/-- Strip `isPySpace` characters from both ends of a character list. -/
def stripList (cs : List Char) : List Char :=
  ((cs.dropWhile isPySpace).reverse.dropWhile isPySpace).reverse

/-- Model of Python `str.strip()`: removes whitespace from BOTH ends. -/
def pyStrip (s : String) : String :=
  String.mk (stripList s.data)

/-- Python truthiness of an optional string argument: `None` and the
empty string are falsy, any other string is truthy. -/
def optTruthy : Option String → Bool
  | none => false
  | some s => !s.isEmpty

/-- The fields of `DownloadWorker.__init__` (src/yt_dlp_gui.py:22-29). -/
structure DownloadWorker where
  url : String
  video_dir : String
  audio_dir : String
  audio_only : Bool
  cookies_browser : Option String
  cookies_file : Option String
deriving DecidableEq, Repr

/-- The argument vector built by `DownloadWorker.run`
(src/yt_dlp_gui.py:31-51): the audio or video base command, extended with
`--cookies <file>` when `self.cookies_file` is truthy, else with
`--cookies-from-browser <browser>` when `self.cookies_browser` is truthy,
with the URL appended last. -/
def buildCmd (w : DownloadWorker) : List String :=
  let base :=
    if w.audio_only then
      ["yt-dlp", "-x", "--audio-format", "mp3", "-P", w.audio_dir]
    else
      ["yt-dlp", "-P", w.video_dir]
  let withCookies :=
    if optTruthy w.cookies_file then
      base ++ ["--cookies", w.cookies_file.getD ""]
    else if optTruthy w.cookies_browser then
      base ++ ["--cookies-from-browser", w.cookies_browser.getD ""]
    else
      base
  withCookies ++ [w.url]

/-- The cookie-flag portion of the argument vector: the two list items
appended by the `cmd.extend` calls of `DownloadWorker.run`
(src/yt_dlp_gui.py:45-50), or `[]` when both cookie fields are falsy. -/
def cookieArgs (w : DownloadWorker) : List String :=
  if optTruthy w.cookies_file then
    ["--cookies", w.cookies_file.getD ""]
  else if optTruthy w.cookies_browser then
    ["--cookies-from-browser", w.cookies_browser.getD ""]
  else
    []

/-- The UI inputs read by `YtDlpGui._get_cookies_selection`
(src/yt_dlp_gui.py:316-326): the two checkboxes, the chosen cookies-file
path (`""` when none was chosen), the browser combo text and the raw
profile line-edit text. -/
structure CookiesUiState where
  use_cookies : Bool
  use_cookies_file : Bool
  cookies_file_path : String
  browser_text : String
  profile_text : String
deriving DecidableEq, Repr

/-- Model of `YtDlpGui._get_cookies_selection` (src/yt_dlp_gui.py:316-326):
returns `(cookies_browser, cookies_file)`. The file branch fires only when
the file checkbox is checked AND the stored path is truthy (non-empty);
otherwise the browser branch fires when its checkbox is checked, formatting
`browser:profile` when the stripped profile is non-empty. -/
def getCookiesSelection (s : CookiesUiState) : Option String × Option String :=
  if s.use_cookies_file && !s.cookies_file_path.isEmpty then
    (none, some s.cookies_file_path)
  else if s.use_cookies then
    let profile := pyStrip s.profile_text
    let cookies_browser :=
      if !profile.isEmpty then s.browser_text ++ ":" ++ profile
      else s.browser_text
    (some cookies_browser, none)
  else
    (none, none)

/-- The `DownloadWorker` constructed by `YtDlpGui.start_download` /
`_start_worker` (src/yt_dlp_gui.py:328-332, 360-361) from the resolved
directories and the cookie selection. -/
def workerFromUi (url video_dir audio_dir : String) (audio_only : Bool)
    (s : CookiesUiState) : DownloadWorker :=
  let sel := getCookiesSelection s
  { url := url, video_dir := video_dir, audio_dir := audio_dir,
    audio_only := audio_only, cookies_browser := sel.1, cookies_file := sel.2 }

/-- An event emitted by `DownloadWorker` to the UI thread: `line text` is
one `self.output.emit(text)` call, `completed` is `self.finished.emit()`. -/
inductive Event where
  | line (text : String)
  | completed
deriving DecidableEq, Repr

/-- Outcome of the `subprocess.Popen`/read/wait block inside the `try` of
`DownloadWorker.run` (src/yt_dlp_gui.py:52-64): either the list of raw
lines read from the child's combined output stream until end-of-stream, or
the text of the exception raised. -/
inductive SpawnResult where
  | ok (lines : List String)
  | err (msg : String)
deriving DecidableEq, Repr

/-- The status line emitted before the command is spawned
(src/yt_dlp_gui.py:38, 44). -/
def startLine (w : DownloadWorker) : String :=
  if w.audio_only then
    "Starting audio download: " ++ w.url ++ "\nDownload directory: " ++ w.audio_dir
  else
    "Starting video download: " ++ w.url ++ "\nDownload directory: " ++ w.video_dir

/-- The cookie status lines emitted while extending the command
(src/yt_dlp_gui.py:47, 50). -/
def cookieLines (w : DownloadWorker) : List String :=
  if optTruthy w.cookies_file then
    ["Using cookies file: " ++ w.cookies_file.getD ""]
  else if optTruthy w.cookies_browser then
    ["Using cookies from browser: " ++ w.cookies_browser.getD ""]
  else
    []

/-- The events emitted by `DownloadWorker.run` before the subprocess is
spawned: the start status line and any cookie status line. -/
def preEvents (w : DownloadWorker) : List Event :=
  Event.line (startLine w) :: (cookieLines w).map Event.line

/-- The full event trace of `DownloadWorker.run` (src/yt_dlp_gui.py:31-65):
status lines, then — on a successful spawn — one `line` event per output
line with `str.strip()` applied followed by the "Download finished." line,
or — when the spawn raises — the single `Error: ...` line; in every case
exactly one final `finished` emission. -/
def runTrace (w : DownloadWorker) (spawn : SpawnResult) : List Event :=
  preEvents w ++
    (match spawn with
      | SpawnResult.ok ls =>
          ls.map (fun l => Event.line (pyStrip l)) ++ [Event.line "Download finished."]
      | SpawnResult.err e => [Event.line ("Error: " ++ e)]) ++
    [Event.completed]

/-- The UI inputs read by `YtDlpGui.start_download` (src/yt_dlp_gui.py:346-361). -/
structure GuiState where
  url_text : String
  audio_only : Bool
  override_save : Bool
  video_dir : String
  audio_dir : String
  cookies : CookiesUiState
deriving DecidableEq, Repr

/-- What a `start_download` invocation does: either appends a message to
the status display and returns without starting a worker, or hands a
`DownloadWorker` to `_start_worker`. -/
inductive StartOutcome where
  | message (text : String)
  | started (w : DownloadWorker)
deriving DecidableEq, Repr

/-- Model of `YtDlpGui._resolve_download_dirs` (src/yt_dlp_gui.py:303-314).
The directory-picker dialog is a GUI boundary; its result is passed in as
`picked`, with `""` meaning the user cancelled (Python falsiness of the
empty return). `none` models the `(None, None)` cancellation return. -/
def resolveDownloadDirs (audio_only : Bool) (video_dir audio_dir : String)
    (override_save : Bool) (picked : String) : Option (String × String) :=
  if !override_save then
    some (video_dir, audio_dir)
  else if audio_only then
    if picked.isEmpty then none else some (video_dir, picked)
  else
    if picked.isEmpty then none else some (picked, audio_dir)

/-- Model of `YtDlpGui.start_download` (src/yt_dlp_gui.py:346-361): strip
the URL text, reject an empty URL, resolve directories (rejecting a
cancelled picker), then build the worker from the cookie selection. The
`last_save_dir` bookkeeping on the success path does not affect the
outcome and is omitted. -/
def start_download (g : GuiState) (picked : String) : StartOutcome :=
  let url := pyStrip g.url_text
  if url.isEmpty then
    StartOutcome.message "Please enter a URL."
  else
    match resolveDownloadDirs g.audio_only g.video_dir g.audio_dir g.override_save picked with
    | none => StartOutcome.message "Download cancelled."
    | some (vd, ad) => StartOutcome.started (workerFromUi url vd ad g.audio_only g.cookies)

/-- A JSON value as far as the config file uses them: strings for the
directory keys and an integer array for `window_size`. -/
inductive JValue where
  | str (s : String)
  | arr (xs : List Int)
deriving DecidableEq, Repr

/-- A JSON object, as Python dict: an association list with unique keys;
`json.dump` writes insertion order. -/
def JObj := List (String × JValue)

/-- Python `dict.get(k, default)` without the default: the first binding
of `k`, if any. -/
def jget (o : JObj) (k : String) : Option JValue :=
  (o.find? (fun p => p.1 == k)).map (fun p => p.2)

/-- The persistent attributes of `YtDlpGui` the config file touches.
`window_size` is doubly optional: `none` models the attribute not existing
(`hasattr` false — `load_config` never ran its assignment), `some none`
models the attribute holding Python `None`, and `some (some v)` a JSON
value read from the file. -/
structure GuiConfigState where
  video_dir : JValue
  audio_dir : JValue
  last_save_dir : JValue
  window_size : Option (Option JValue)
deriving DecidableEq, Repr

/-- The attribute defaults set by `YtDlpGui.__init__` before `load_config`
(src/yt_dlp_gui.py:112-115): both download targets default to the user's
home directory, the last-save path to `""`, and no `window_size` attribute
exists. -/
def initConfig (home : String) : GuiConfigState :=
  { video_dir := JValue.str home, audio_dir := JValue.str home,
    last_save_dir := JValue.str "", window_size := none }

/-- Model of `YtDlpGui.load_config` (src/yt_dlp_gui.py:396-406). `file` is
`none` when the config file is absent, unparseable, or not a JSON object
(any of which leaves every attribute at its prior value: the `except` swallows
the error before any assignment ran); otherwise each key is read with
`dict.get`, keeping the prior value as default — except `window_size`,
whose `get` default is Python `None`, so the attribute is always assigned. -/
def load_config (init : GuiConfigState) (file : Option JObj) : GuiConfigState :=
  match file with
  | none => init
  | some cfg =>
      { video_dir := (jget cfg "video_dir").getD init.video_dir,
        audio_dir := (jget cfg "audio_dir").getD init.audio_dir,
        last_save_dir := (jget cfg "last_save_dir").getD init.last_save_dir,
        window_size := some (jget cfg "window_size") }

/-- Model of `YtDlpGui.save_config` (src/yt_dlp_gui.py:408-419): the JSON
object written, with `window_size` the current widget `[width, height]`. -/
def save_config (s : GuiConfigState) (width height : Int) : JObj :=
  [("video_dir", s.video_dir), ("audio_dir", s.audio_dir),
   ("last_save_dir", s.last_save_dir),
   ("window_size", JValue.arr [width, height])]

/-- The window-size restore step of `YtDlpGui.__init__`
(src/yt_dlp_gui.py:253-255): `if hasattr(self, 'window_size'):
self.resize(QSize(*self.window_size))`. When the attribute is absent the
step is skipped; when it holds Python `None`, `QSize(*None)` raises an
unhandled `TypeError`; when it holds a value, star-unpacking succeeds only
for an argument count `QSize` accepts (an empty or two-element array —
`QSize(int, int)`; string elements are not ints and also raise). -/
def resize_step (ws : Option (Option JValue)) : Except String Unit :=
  match ws with
  | none => Except.ok ()
  | some none => Except.error "TypeError: argument after * must be an iterable, not NoneType"
  | some (some (JValue.arr l)) =>
      if l.length = 2 ∨ l.length = 0 then Except.ok ()
      else Except.error "TypeError: QSize(): not enough arguments"
  | some (some (JValue.str _)) => Except.error "TypeError: QSize(): argument has unexpected type"

/-- The startup path touching the config: attribute defaults, then
`load_config`, then the window-size restore step; an `error` result is an
unhandled exception propagating out of `YtDlpGui.__init__`. -/
def startup (home : String) (file : Option JObj) : Except String GuiConfigState :=
  let s := load_config (initConfig home) file
  match resize_step s.window_size with
  | Except.ok _ => Except.ok s
  | Except.error e => Except.error e

/-- The concrete video-mode worker of the spec's event-ordering scenario:
no cookies, so the only status line is the start line. -/
def wScenario : DownloadWorker :=
  { url := "u", video_dir := "d", audio_dir := "d", audio_only := false,
    cookies_browser := none, cookies_file := none }

/-- C1. The built argument vector is the audio base
`["yt-dlp","-x","--audio-format","mp3","-P",audioDir]` or the video base
`["yt-dlp","-P",videoDir]`, followed by the cookie flags, followed by the
URL as the final positional argument; at the concrete request
url="http://x/y", audioOnly=false, targetDir="/tmp/v", cookies=None the
arguments after the tool name are exactly `["-P","/tmp/v","http://x/y"]`. -/
theorem buildCmd_structure :
    (∀ w : DownloadWorker,
      buildCmd w =
        (if w.audio_only then
          ["yt-dlp", "-x", "--audio-format", "mp3", "-P", w.audio_dir]
        else
          ["yt-dlp", "-P", w.video_dir]) ++ cookieArgs w ++ [w.url])
    ∧ buildCmd
        { url := "http://x/y", video_dir := "/tmp/v", audio_dir := "/tmp/a",
          audio_only := false, cookies_browser := none, cookies_file := none }
        = "yt-dlp" :: ["-P", "/tmp/v", "http://x/y"] := by
  constructor
  · intro w
    unfold buildCmd cookieArgs
    by_cases hf : optTruthy w.cookies_file
    · simp [hf]
    · by_cases hb : optTruthy w.cookies_browser <;> simp [hf, hb]
  · rfl

/-- Helper: the head character survives a string append on the right. -/
theorem data_head_append (s t : String) (c : Char) (h : s.data.head? = some c) :
    (s ++ t).data.head? = some c := by
  rw [String.data_append]
  cases hs : s.data with
  | nil => rw [hs] at h; cases h
  | cons a l => rw [hs] at h; simpa using h

/-- Helper: a string with a non-empty right append factor is non-empty. -/
theorem append_ne_empty_of_right_ne (a b : String) (hb : b ≠ "") : a ++ b ≠ "" := by
  intro h
  apply hb
  have hd : a.data ++ b.data = [] := by
    have := String.ext_iff.mp h
    rwa [String.data_append] at this
  exact String.ext (List.append_eq_nil.mp hd).2

/-- Helper: every status line emitted before the spawn starts with the
character `S` (the start line) or `U` (a cookie line). -/
theorem startLine_head (w : DownloadWorker) : (startLine w).data.head? = some 'S' := by
  unfold startLine
  by_cases h : w.audio_only = true <;>
    simp only [h, if_true, if_false, Bool.false_eq_true] <;>
    exact data_head_append _ _ _ (data_head_append _ _ _ (data_head_append _ _ _ (by decide)))

/-- Helper: every cookie status line starts with the character `U`. -/
theorem cookieLines_head (w : DownloadWorker) (s : String) (h : s ∈ cookieLines w) :
    s.data.head? = some 'U' := by
  unfold cookieLines at h
  by_cases hf : optTruthy w.cookies_file = true
  · simp only [hf, if_true, List.mem_singleton] at h
    subst h
    exact data_head_append _ _ _ (by decide)
  · by_cases hb : optTruthy w.cookies_browser = true <;>
      simp only [hf, hb, if_true, if_false, Bool.false_eq_true, List.mem_singleton,
        List.not_mem_nil] at h
    subst h
    exact data_head_append _ _ _ (by decide)

/-- Helper: no pre-spawn status line equals the error line of the except
branch. -/
theorem preEvents_count_error (w : DownloadWorker) (e : String) :
    (preEvents w).count (Event.line ("Error: " ++ e)) = 0 := by
  rw [List.count_eq_zero]
  intro hmem
  have herr : ("Error: " ++ e).data.head? = some 'E' :=
    data_head_append _ _ _ (by decide)
  simp only [preEvents, List.mem_cons, List.mem_map] at hmem
  rcases hmem with h | ⟨s, hs, h⟩
  · have heq := Event.line.inj h.symm
    have hS := startLine_head w
    rw [heq, herr] at hS
    exact absurd hS (by decide)
  · have heq := Event.line.inj h
    have hU := cookieLines_head w s hs
    rw [heq, herr] at hU
    exact absurd hU (by decide)

/-- Helper: `completed` never occurs among `line` events. -/
theorem completed_not_mem_line_map (ls : List String) :
    Event.completed ∉ ls.map Event.line := by
  intro h
  rcases List.mem_map.mp h with ⟨s, _, hs⟩
  cases hs

/-- Helper: `completed` is not a pre-spawn event. -/
theorem completed_not_mem_preEvents (w : DownloadWorker) :
    Event.completed ∉ preEvents w := by
  intro h
  rcases List.mem_cons.mp h with h | h
  · cases h
  · exact completed_not_mem_line_map _ h

/-- Helper: all characters of a `takeWhile` satisfy the predicate. -/
theorem takeWhile_all {α : Type} (p : α → Bool) (l : List α) :
    (l.takeWhile p).all p := by
  rw [List.all_eq_true]
  intro x hx
  exact List.mem_takeWhile_imp hx

/-- Helper: `stripList` removes a fully-whitespace prefix and suffix and
nothing else: the original is whitespace, then the stripped list, then
whitespace. -/
theorem stripList_decomp (cs : List Char) :
    ∃ pre post : List Char, cs = pre ++ stripList cs ++ post
      ∧ pre.all isPySpace ∧ post.all isPySpace := by
  refine ⟨cs.takeWhile isPySpace,
    ((cs.dropWhile isPySpace).reverse.takeWhile isPySpace).reverse, ?_, ?_, ?_⟩
  · unfold stripList
    rw [List.append_assoc]
    have h2 := List.takeWhile_append_dropWhile isPySpace (cs.dropWhile isPySpace).reverse
    have h3 := congrArg List.reverse h2
    rw [List.reverse_append, List.reverse_reverse] at h3
    rw [h3]
    exact (List.takeWhile_append_dropWhile isPySpace cs).symm
  · exact takeWhile_all _ _
  · rw [List.all_reverse]
    exact takeWhile_all _ _

/-- Helper: the cookie selection when the file branch applies. -/
theorem sel_file (s : CookiesUiState) (h1 : s.use_cookies_file = true)
    (h2 : s.cookies_file_path ≠ "") :
    getCookiesSelection s = (none, some s.cookies_file_path) := by
  have hne : s.cookies_file_path.isEmpty = false := by
    cases hie : s.cookies_file_path.isEmpty
    · rfl
    · exact absurd ((String.isEmpty_iff _).mp hie) h2
  simp [getCookiesSelection, h1, hne]

/-- Helper: the cookie selection when the file branch does not apply but
the browser branch does. -/
theorem sel_browser (s : CookiesUiState)
    (hfile : s.use_cookies_file = false ∨ s.cookies_file_path = "")
    (hb : s.use_cookies = true) :
    getCookiesSelection s =
      (some (if !(pyStrip s.profile_text).isEmpty
        then s.browser_text ++ ":" ++ pyStrip s.profile_text
        else s.browser_text), none) := by
  have hcond : (s.use_cookies_file && !s.cookies_file_path.isEmpty) = false := by
    rcases hfile with h | h
    · rw [h]; rfl
    · have hie : ("" : String).isEmpty = true := by decide
      rw [h, hie]
      simp
  simp only [getCookiesSelection, hcond, Bool.false_eq_true, if_false, hb, if_true]

/-- Helper: the cookie selection when neither branch applies. -/
theorem sel_neither (s : CookiesUiState)
    (hfile : s.use_cookies_file = false ∨ s.cookies_file_path = "")
    (hb : s.use_cookies = false) :
    getCookiesSelection s = (none, none) := by
  have hcond : (s.use_cookies_file && !s.cookies_file_path.isEmpty) = false := by
    rcases hfile with h | h
    · rw [h]; rfl
    · have hie : ("" : String).isEmpty = true := by decide
      rw [h, hie]
      simp
  simp [getCookiesSelection, hcond, hb]

/-- Helper: a non-empty string has `isEmpty = false`. -/
theorem isEmpty_false_of_ne (s : String) (h : s ≠ "") : s.isEmpty = false := by
  cases hie : s.isEmpty
  · rfl
  · exact absurd ((String.isEmpty_iff _).mp hie) h

/-- Helper: a worker with a falsy `cookies_file` never gets a `--cookies`
flag pair. -/
theorem cookieArgs_no_file (w : DownloadWorker) (hf : w.cookies_file = none)
    (p : String) : cookieArgs w ≠ ["--cookies", p] := by
  intro hbad
  rw [cookieArgs, hf] at hbad
  have hcf : optTruthy none = false := rfl
  rw [hcf] at hbad
  simp only [Bool.false_eq_true, if_false] at hbad
  by_cases hb : optTruthy w.cookies_browser = true
  · rw [if_pos hb] at hbad
    have hc : ("--cookies-from-browser" : String) = "--cookies" := (List.cons.inj hbad).1
    exact absurd hc (by decide)
  · rw [if_neg hb] at hbad
    exact List.noConfusion hbad

/-- C2. Cookie precedence through selection and command builder: when both
the cookies-file option (with a chosen path) and the browser option are
selected, the cookie flags are exactly `--cookies <path>` and never the
`--cookies-from-browser` flag; when only the browser option is selected
(with a browser in the combo) the flags are `--cookies-from-browser <b>`;
when neither option is selected there are no cookie flags. -/
theorem cookie_precedence (s : CookiesUiState) (url vd ad : String) (ao : Bool) :
    (s.use_cookies_file = true → s.cookies_file_path ≠ "" →
      cookieArgs (workerFromUi url vd ad ao s) = ["--cookies", s.cookies_file_path]
      ∧ ∀ b, cookieArgs (workerFromUi url vd ad ao s) ≠ ["--cookies-from-browser", b])
    ∧ ((s.use_cookies_file = false ∨ s.cookies_file_path = "") →
        s.use_cookies = true → s.browser_text ≠ "" →
        ∃ b, cookieArgs (workerFromUi url vd ad ao s) = ["--cookies-from-browser", b])
    ∧ (s.use_cookies = false → s.use_cookies_file = false →
        cookieArgs (workerFromUi url vd ad ao s) = []) := by
  refine ⟨fun h1 h2 => ?_, fun hfile hb hbr => ?_, fun hb hfile => ?_⟩
  · have hsel := sel_file s h1 h2
    have hne : s.cookies_file_path.isEmpty = false := by
      cases hie : s.cookies_file_path.isEmpty
      · rfl
      · exact absurd ((String.isEmpty_iff _).mp hie) h2
    constructor
    · simp [workerFromUi, hsel, cookieArgs, optTruthy, hne]
    · intro b hbad
      rw [workerFromUi] at hbad
      rw [hsel] at hbad
      simp [cookieArgs, optTruthy, hne] at hbad
  · have hsel := sel_browser s hfile hb
    by_cases hp : (pyStrip s.profile_text).isEmpty = true
    · refine ⟨s.browser_text, ?_⟩
      have hbe := isEmpty_false_of_ne s.browser_text hbr
      simp [workerFromUi, hsel, cookieArgs, optTruthy, hp, hbe]
    · refine ⟨s.browser_text ++ ":" ++ pyStrip s.profile_text, ?_⟩
      have hne : (s.browser_text ++ ":" ++ pyStrip s.profile_text) ≠ "" := by
        apply append_ne_empty_of_right_ne
        intro hps
        rw [hps] at hp
        exact hp (by decide)
      have hbe := isEmpty_false_of_ne _ hne
      have hp' : (pyStrip s.profile_text).isEmpty = false := by
        cases hie : (pyStrip s.profile_text).isEmpty
        · rfl
        · exact absurd hie hp
      simp [workerFromUi, hsel, cookieArgs, optTruthy, hp', hbe]
  · have hsel := sel_neither s (Or.inl hfile) hb
    simp [workerFromUi, hsel, cookieArgs, optTruthy]

/-- Witness for C2: both options selected with path "/c.txt" yields
exactly the file flag; browser only yields the browser flag; neither
yields none. -/
theorem cookie_precedence_witness :
    cookieArgs (workerFromUi "u" "v" "a" false ⟨true, true, "/c.txt", "firefox", ""⟩)
      = ["--cookies", "/c.txt"]
    ∧ (∃ b, cookieArgs (workerFromUi "u" "v" "a" false ⟨true, false, "", "firefox", ""⟩)
        = ["--cookies-from-browser", b])
    ∧ cookieArgs (workerFromUi "u" "v" "a" false ⟨false, false, "", "firefox", ""⟩)
      = [] :=
  ⟨((cookie_precedence ⟨true, true, "/c.txt", "firefox", ""⟩ "u" "v" "a" false).1
      rfl (by decide)).1,
   (cookie_precedence ⟨true, false, "", "firefox", ""⟩ "u" "v" "a" false).2.1
      (Or.inl rfl) rfl (by decide),
   (cookie_precedence ⟨false, false, "", "firefox", ""⟩ "u" "v" "a" false).2.2 rfl rfl⟩

/-- C3. Profile formatting: with browser "firefox" and profile text
"Default" the cookie argument is exactly "firefox:Default"; with a profile
text that strips to empty (empty or whitespace-only) it is exactly
"firefox". -/
theorem profile_formatting :
    getCookiesSelection ⟨true, false, "", "firefox", "Default"⟩
      = (some "firefox:Default", none)
    ∧ ∀ p : String, pyStrip p = "" →
        getCookiesSelection ⟨true, false, "", "firefox", p⟩ = (some "firefox", none) := by
  constructor
  · decide
  · intro p hp
    have hsel := sel_browser ⟨true, false, "", "firefox", p⟩ (Or.inl rfl) rfl
    rw [hsel]
    have hie : ("" : String).isEmpty = true := by decide
    simp [hp, hie]

/-- Witness for C3: the whitespace-only profile "  " yields exactly
"firefox". -/
theorem profile_formatting_witness :
    getCookiesSelection ⟨true, false, "", "firefox", "  "⟩ = (some "firefox", none) :=
  profile_formatting.2 "  " (by decide)

/-- C10. A selected cookies-file option with an empty stored path falls
back to the browser selection: the cookie selection equals the selection
with the file option off, its file component is `none`, no `--cookies`
flag can be produced, and with the browser option also off the selection
is empty. -/
theorem empty_file_path_fallback (s : CookiesUiState)
    (h1 : s.use_cookies_file = true) (h2 : s.cookies_file_path = "") :
    getCookiesSelection s = getCookiesSelection { s with use_cookies_file := false }
    ∧ (getCookiesSelection s).2 = none
    ∧ (∀ url vd ad ao p, cookieArgs (workerFromUi url vd ad ao s) ≠ ["--cookies", p])
    ∧ (s.use_cookies = false → getCookiesSelection s = (none, none)) := by
  have hfile : s.use_cookies_file = false ∨ s.cookies_file_path = "" := Or.inr h2
  refine ⟨?_, ?_, ?_, fun hb => sel_neither s hfile hb⟩
  · by_cases hb : s.use_cookies = true
    · rw [sel_browser s hfile hb,
        sel_browser { s with use_cookies_file := false } (Or.inl rfl) hb]
    · have hb' : s.use_cookies = false := by
        cases h : s.use_cookies
        · rfl
        · exact absurd h hb
      rw [sel_neither s hfile hb',
        sel_neither { s with use_cookies_file := false } (Or.inl rfl) hb']
  · cases hb : s.use_cookies
    · rw [sel_neither s hfile hb]
    · rw [sel_browser s hfile hb]
  · intro url vd ad ao p
    apply cookieArgs_no_file
    show (getCookiesSelection s).2 = none
    cases hb : s.use_cookies
    · rw [sel_neither s hfile hb]
    · rw [sel_browser s hfile hb]

/-- Witness for C10: file option checked with no chosen path and browser
option checked falls back to the browser flags. -/
theorem empty_file_path_fallback_witness :
    getCookiesSelection ⟨true, true, "", "chrome", ""⟩
      = getCookiesSelection ⟨true, false, "", "chrome", ""⟩
    ∧ (getCookiesSelection ⟨true, true, "", "chrome", ""⟩).2 = none :=
  ⟨(empty_file_path_fallback ⟨true, true, "", "chrome", ""⟩ rfl rfl).1,
   (empty_file_path_fallback ⟨true, true, "", "chrome", ""⟩ rfl rfl).2.1⟩

/-- Helper: `completed` never occurs among stripped child line events. -/
theorem completed_not_mem_strip_map (ls : List String) :
    Event.completed ∉ ls.map (fun l => Event.line (pyStrip l)) := by
  intro h
  rcases List.mem_map.mp h with ⟨s, _, hs⟩
  cases hs

/-- Counterexample to C4 as stated: for a child emitting "A","B","C" the
emitted event sequence is not exactly line(A),line(B),line(C),completed —
the worker also emits its own status lines. -/
theorem event_sequence_counterexample :
    runTrace wScenario (SpawnResult.ok ["A", "B", "C"]) ≠
      [Event.line "A", Event.line "B", Event.line "C", Event.completed] := by
  decide

/-- C4 (amended). For a child emitting "A","B","C" the trace is the start
status line, then line(A), line(B), line(C) in order, then the
"Download finished." line, then completed; in general child line events
keep the child's order between the pre-spawn status events and the tail,
and every run emits exactly one completed event, as its final event. -/
theorem event_ordering :
    runTrace wScenario (SpawnResult.ok ["A", "B", "C"]) =
      [Event.line "Starting video download: u\nDownload directory: d",
       Event.line "A", Event.line "B", Event.line "C",
       Event.line "Download finished.", Event.completed]
    ∧ (∀ (w : DownloadWorker) (ls : List String),
        runTrace w (SpawnResult.ok ls) =
          preEvents w ++ ls.map (fun l => Event.line (pyStrip l))
            ++ [Event.line "Download finished.", Event.completed])
    ∧ (∀ (w : DownloadWorker) (sp : SpawnResult),
        (runTrace w sp).count Event.completed = 1
        ∧ ∃ pre, runTrace w sp = pre ++ [Event.completed] ∧ Event.completed ∉ pre) := by
  refine ⟨by decide, fun w ls => ?_, fun w sp => ?_⟩
  · simp [runTrace]
  · have hpre := completed_not_mem_preEvents w
    cases sp with
    | ok ls =>
      constructor
      · rw [runTrace, List.count_append, List.count_append, List.count_append]
        rw [List.count_eq_zero.mpr hpre,
          List.count_eq_zero.mpr (completed_not_mem_strip_map ls)]
        simp
      · refine ⟨preEvents w ++ (ls.map (fun l => Event.line (pyStrip l))
          ++ [Event.line "Download finished."]), by simp [runTrace], ?_⟩
        intro hmem
        rcases List.mem_append.mp hmem with h | h
        · exact hpre h
        · rcases List.mem_append.mp h with h | h
          · exact completed_not_mem_strip_map ls h
          · exact Event.noConfusion (List.mem_singleton.mp h)
    | err e =>
      constructor
      · rw [runTrace, List.count_append, List.count_append]
        rw [List.count_eq_zero.mpr hpre]
        simp
      · refine ⟨preEvents w ++ [Event.line ("Error: " ++ e)], by simp [runTrace], ?_⟩
        intro hmem
        rcases List.mem_append.mp hmem with h | h
        · exact hpre h
        · exact Event.noConfusion (List.mem_singleton.mp h)

/-- C5. When the spawn raises with message `e`, the trace is the pre-spawn
status events followed by exactly one line event carrying the error text
`Error: e` and then exactly one completed event as the final event. -/
theorem spawn_failure_events (w : DownloadWorker) (e : String) :
    runTrace w (SpawnResult.err e) =
      preEvents w ++ [Event.line ("Error: " ++ e), Event.completed]
    ∧ (runTrace w (SpawnResult.err e)).count (Event.line ("Error: " ++ e)) = 1
    ∧ (runTrace w (SpawnResult.err e)).count Event.completed = 1
    ∧ (runTrace w (SpawnResult.err e)).getLast? = some Event.completed := by
  refine ⟨by simp [runTrace], ?_, ?_, ?_⟩
  · rw [runTrace]
    rw [List.count_append, List.count_append]
    rw [preEvents_count_error w e]
    simp
  · rw [runTrace]
    rw [List.count_append, List.count_append]
    rw [List.count_eq_zero.mpr (completed_not_mem_preEvents w)]
    simp
  · rw [runTrace]
    exact List.getLast?_concat _

/-- Counterexample to C9 as stated: for the child line "  A " with leading
and trailing whitespace, the claim predicts the event text "  A" (leading
whitespace preserved); the code emits "A". -/
theorem strip_counterexample :
    Event.line "  A" ∉ runTrace wScenario (SpawnResult.ok ["  A "])
    ∧ Event.line "A" ∈ runTrace wScenario (SpawnResult.ok ["  A "]) := by
  decide

/-- C9 (amended). Each line event for a child output line carries the line
text with whitespace stripped from BOTH ends (Python `str.strip()`): the
trace maps `pyStrip` over the child lines, and `stripList` removes exactly
a whitespace prefix and a whitespace suffix, leaving the middle unchanged;
concretely "  A " is emitted as "A". -/
theorem strip_line_events :
    (∀ (w : DownloadWorker) (ls : List String),
      runTrace w (SpawnResult.ok ls) =
        preEvents w ++ ls.map (fun l => Event.line (pyStrip l))
          ++ [Event.line "Download finished.", Event.completed])
    ∧ (∀ cs : List Char, ∃ pre post : List Char,
        cs = pre ++ stripList cs ++ post
        ∧ pre.all isPySpace ∧ post.all isPySpace)
    ∧ pyStrip "  A " = "A" := by
  refine ⟨fun w ls => by simp [runTrace], stripList_decomp, by decide⟩

/-- C6. Settings persistence round-trips: loading the JSON object written
by `save_config` restores the keys video_dir, audio_dir, last_save_dir and
window_size unchanged regardless of the prior state, and when the saved
state's window size matches the widget size being written, the load
reproduces the state exactly. -/
theorem settings_roundtrip (init s : GuiConfigState) (w h : Int) :
    (load_config init (some (save_config s w h))).video_dir = s.video_dir
    ∧ (load_config init (some (save_config s w h))).audio_dir = s.audio_dir
    ∧ (load_config init (some (save_config s w h))).last_save_dir = s.last_save_dir
    ∧ (load_config init (some (save_config s w h))).window_size
        = some (some (JValue.arr [w, h]))
    ∧ (s.window_size = some (some (JValue.arr [w, h])) →
        load_config init (some (save_config s w h)) = s) := by
  refine ⟨rfl, rfl, rfl, rfl, ?_⟩
  intro hws
  cases s with
  | mk v a l ws =>
    simp only at hws
    subst hws
    rfl

/-- Witness for C6: a concrete settings value with a defined window size
round-trips exactly. -/
theorem settings_roundtrip_witness :
    load_config (initConfig "~")
      (some (save_config ⟨JValue.str "/v", JValue.str "/a", JValue.str "/l",
        some (some (JValue.arr [640, 480]))⟩ 640 480))
      = ⟨JValue.str "/v", JValue.str "/a", JValue.str "/l",
        some (some (JValue.arr [640, 480]))⟩ :=
  (settings_roundtrip (initConfig "~")
    ⟨JValue.str "/v", JValue.str "/a", JValue.str "/l",
      some (some (JValue.arr [640, 480]))⟩ 640 480).2.2.2.2 rfl

/-- C7. User-input errors are rejected before any subprocess starts: an
URL that strips to empty yields only the inline "Please enter a URL."
message and never a started worker, and with the override box checked a
cancelled picker (empty dialog result) never yields a started worker,
producing the inline "Download cancelled." message when the URL was
non-empty. -/
theorem input_rejected_before_spawn :
    (∀ (g : GuiState) (picked : String), pyStrip g.url_text = "" →
      start_download g picked = StartOutcome.message "Please enter a URL."
      ∧ ∀ w, start_download g picked ≠ StartOutcome.started w)
    ∧ (∀ g : GuiState, g.override_save = true →
        (∀ w, start_download g "" ≠ StartOutcome.started w)
        ∧ (pyStrip g.url_text ≠ "" →
            start_download g "" = StartOutcome.message "Download cancelled.")) := by
  constructor
  · intro g picked hurl
    have hie : (pyStrip g.url_text).isEmpty = true := by
      rw [hurl]
      decide
    have hmsg : start_download g picked = StartOutcome.message "Please enter a URL." := by
      rw [start_download]
      simp [hie]
    exact ⟨hmsg, fun w hbad => StartOutcome.noConfusion (hmsg.symm.trans hbad)⟩
  · intro g hov
    have hres : resolveDownloadDirs g.audio_only g.video_dir g.audio_dir
        g.override_save "" = none := by
      have hie : ("" : String).isEmpty = true := by decide
      rw [resolveDownloadDirs, hov]
      cases g.audio_only <;> simp [hie]
    by_cases hurl : (pyStrip g.url_text).isEmpty = true
    · have hmsg : start_download g "" = StartOutcome.message "Please enter a URL." := by
        rw [start_download]
        simp [hurl]
      refine ⟨fun w hbad => StartOutcome.noConfusion (hmsg.symm.trans hbad), fun hne => ?_⟩
      exact absurd ((String.isEmpty_iff _).mp hurl) hne
    · have hurl' : (pyStrip g.url_text).isEmpty = false := by
        cases hie : (pyStrip g.url_text).isEmpty
        · rfl
        · exact absurd hie hurl
      have hmsg : start_download g "" = StartOutcome.message "Download cancelled." := by
        rw [start_download]
        simp [hurl', hres]
      exact ⟨fun w hbad => StartOutcome.noConfusion (hmsg.symm.trans hbad), fun _ => hmsg⟩

/-- Witness for C7: an all-whitespace URL is rejected with the URL
message; a cancelled picker with override checked is rejected with the
cancellation message. -/
theorem input_rejected_witness :
    start_download ⟨" ", false, false, "v", "a", ⟨false, false, "", "", ""⟩⟩ "p"
      = StartOutcome.message "Please enter a URL."
    ∧ start_download ⟨"u", false, true, "v", "a", ⟨false, false, "", "", ""⟩⟩ ""
      = StartOutcome.message "Download cancelled." :=
  ⟨(input_rejected_before_spawn.1 ⟨" ", false, false, "v", "a", ⟨false, false, "", "", ""⟩⟩
      "p" (by decide)).1,
   (input_rejected_before_spawn.2 ⟨"u", false, true, "v", "a", ⟨false, false, "", "", ""⟩⟩
      rfl).2 (by decide)⟩

/-- C8 (code bug). Startup with an absent or unparseable settings file
uses the defaults without failing, but a VALID JSON settings file that
merely lacks the `window_size` key crashes startup: `load_config` then
assigns `self.window_size = None`, the `hasattr` guard in `__init__`
passes, and `QSize(*None)` raises an unhandled TypeError. -/
theorem missing_window_size_crashes :
    (∀ home : String, startup home none = Except.ok (initConfig home))
    ∧ startup "~" (some [("video_dir", JValue.str "/v")])
        = Except.error "TypeError: argument after * must be an iterable, not NoneType"
    ∧ (∀ home : String, ∀ w h : Int,
        startup home (some [("video_dir", JValue.str "/v"), ("audio_dir", JValue.str "/a"),
          ("last_save_dir", JValue.str "/l"), ("window_size", JValue.arr [w, h])])
          = Except.ok ⟨JValue.str "/v", JValue.str "/a", JValue.str "/l",
              some (some (JValue.arr [w, h]))⟩) := by
  refine ⟨fun home => rfl, rfl, fun home w h => rfl⟩
